import Mathlib

/-!
Shallow embedding of the VoceVibe core pipeline (Studio-Carlos/VoceVibe).

The definitions below are translated from the Python sources:
  src/src/brain_engine.py    (Fast Brain: BrainEngine)
  src/src/audio_engine.py    (STT worker: AudioEngine)
  src/src/summary_engine.py  (Slow Brain: SummaryEngine)
  src/src/osc_client.py      (OSCClient)
  src/src/config.py          (Config)
Timestamps (Python `time.time()` floats) are modelled as rationals; the
text queues are modelled as FIFO lists (head = oldest element).  The
Python string primitives used by the sources (`str.strip`,
`str.replace` on a one-character pattern, `str.join`, `len`, slicing)
are modelled as computable functions on the character list of a string,
matching Python's code-point semantics.
-/

namespace VoceVibe

/-! Python string primitives. -/

/-- Whitespace test used by Python `str.strip()` (restricted to the
ASCII whitespace that can occur in the pipeline's strings). -/
def isSpaceChar (c : Char) : Bool := c.isWhitespace

/-- Drop leading and trailing whitespace from a character list. -/
def stripChars (cs : List Char) : List Char :=
  ((cs.dropWhile isSpaceChar).reverse.dropWhile isSpaceChar).reverse

/-- Python `s.strip()`. -/
def pyStrip (s : String) : String := ⟨stripChars s.data⟩

/-- Python `len(s)`: number of code points. -/
def pyLen (s : String) : Nat := s.data.length

/-- Python `s[:n]`. -/
def pyTake (s : String) (n : Nat) : String := ⟨s.data.take n⟩

/-- Python `s[k:]`. -/
def pyDropFront (s : String) (k : Nat) : String := ⟨s.data.drop k⟩

/-- Characters of `sep.join(parts)` seen as character lists. -/
def joinChars (sep : List Char) : List (List Char) → List Char
  | [] => []
  | [x] => x
  | x :: xs => x ++ sep ++ joinChars sep xs

/-- Python `sep.join(parts)`. -/
def pyJoin (sep : String) (parts : List String) : String :=
  ⟨joinChars sep.data (parts.map (fun p => p.data))⟩

/-- Python `s.replace(a, b)` for a one-character pattern and a
one-character replacement (the only use in the sources is replacing the
sentencepiece word-start marker with a space). -/
def replaceChar (a b : Char) (s : String) : String :=
  ⟨s.data.map (fun c => if c = a then b else c)⟩

/-- Python `s[-1]` as an option: the last character, when any. -/
def lastChar? (s : String) : Option Char := s.data.getLast?

/-! Fast Brain (brain_engine.py). -/

/-- Result dictionary produced by the Fast Brain: keys `prompt`, `style`, `mood`. -/
structure PromptData where
  prompt : String
  style : String
  mood : String
deriving DecidableEq, Repr

/-- Partial JSON object parsed from the LLM response content in
`_analyze_with_ollama`: which of the three expected keys are present
(absent keys are filled with defaults by the code). -/
structure PromptDict where
  promptField : Option String
  styleField : Option String
  moodField : Option String
deriving DecidableEq, Repr

/-- Outcome of `json.loads(content)` plus the dict check inside
`_analyze_with_ollama` (brain_engine.py lines 296-325):
`objVal d` — parsing succeeded and produced a JSON object;
`nonObj` — parsing succeeded but the value is not an object, so the code
raises `ValueError`, which is not caught by the inner
`except json.JSONDecodeError` and falls to the outer handler;
`decodeErr` — `json.loads` raised `JSONDecodeError`. -/
inductive ParseOutcome where
  | objVal (d : PromptDict)
  | nonObj
  | decodeErr
deriving DecidableEq, Repr

/-- Outcome of the `ollama.chat` call as observed by `_analyze_with_ollama`:
either the call (or anything before the inner parse) raised an exception
(LLM unreachable, timeout, ...), or it returned a response whose content
then goes through JSON parsing. -/
inductive LlmOutcome where
  | unreachable
  | response (p : ParseOutcome)
deriving DecidableEq, Repr

/-- Key-defaulting from brain_engine.py lines 303-309: a missing `prompt`
becomes the first 100 characters of the analyzed text, a missing `style`
becomes abstract, a missing `mood` becomes dynamic. -/
def fillDefaults (text : String) (d : PromptDict) : PromptData :=
  { prompt := d.promptField.getD (pyTake text 100)
    style := d.styleField.getD ("abstract")
    mood := d.moodField.getD ("dynamic") }

/-- Embedding of `BrainEngine._analyze_with_ollama` (brain_engine.py lines
219-331), as a function of the analyzed text and of the LLM call outcome.
Returns the dictionary the method returns, or `none` when the method
returns `None` (empty input, exception from `ollama.chat`, or the
`ValueError` raised for a non-object JSON value, both of which reach the
outer `except Exception` handler).  Only a `json.JSONDecodeError` produces
the fallback dictionary built from the raw text (lines 316-325). -/
def analyzeWithOllama (text : String) (o : LlmOutcome) : Option PromptData :=
  if pyStrip text = "" then none
  else
    match o with
    | .unreachable => none
    | .response .decodeErr =>
        some { prompt := pyTake text 200, style := "abstract", mood := "dynamic" }
    | .response .nonObj => none
    | .response (.objVal d) => some (fillDefaults text d)

/-- Mutable state of the Fast Brain relevant to text handling:
`textBuffer` is the sliding-window deque `_text_buffer` of
(timestamp, text) pairs (maxlen 1000), `accumBuffer` is
`_accumulation_buffer`, `accumStart` is `_accumulation_start_time`. -/
structure FastState where
  textBuffer : List (ℚ × String)
  accumBuffer : List String
  accumStart : Option ℚ
deriving DecidableEq, Repr

/-- Append to a `collections.deque` with a `maxlen` bound: the oldest
entries are evicted when the bound is exceeded. -/
def dequeAppend (maxlen : Nat) (q : List α) (x : α) : List α :=
  let q2 := q ++ [x]
  if maxlen < q2.length then q2.drop (q2.length - maxlen) else q2

/-- Repeated `_add_to_buffer` (brain_engine.py lines 74-83) for the batch
of texts drained from the queue in one `_collect_recent_text` pass, all
stamped with the current time. -/
def pushWindow (now : ℚ) (q : List (ℚ × String)) (texts : List String) : List (ℚ × String) :=
  texts.foldl (fun acc t => dequeAppend 1000 acc (now, t)) q

/-- Value of `self._accumulation_timeout` (brain_engine.py line 60): 7.5 s. -/
def accumulationTimeout : ℚ := 15 / 2

/-- Value of `self._min_char_threshold` (brain_engine.py line 62): 15. -/
def minCharThreshold : Nat := 15

/-- The post-drain value of `_accumulation_start_time`
(brain_engine.py lines 128-131): it is set to `now` only when new texts
arrived and it was previously `None`. -/
def drainedStart (now : ℚ) (newTexts : List String) (st : FastState) : Option ℚ :=
  if newTexts = [] then st.accumStart
  else if st.accumStart = none then some now else st.accumStart

/-- Return value of `_collect_recent_text`: the updated engine state, the
accumulated text, and the `should_analyze_now` flag. -/
structure CollectResult where
  state : FastState
  text : String
  shouldAnalyze : Bool
deriving DecidableEq, Repr

/-- Embedding of `BrainEngine._collect_recent_text` (brain_engine.py lines
104-172).  `newTexts` is the batch drained from the text queue this pass.
Each drained text is timestamped into the sliding-window buffer and
appended to the accumulation buffer; the first-arrival timestamp is set
when the buffer transitions from empty.  The analyze decision of the
source is: timeout reached (elapsed since first arrival at least 7.5 s),
or the accumulated length at least `minCharThreshold`; the source also
computes `is_complete_sentence` from the last token's trailing
punctuation but the final decision at lines 159-162 only tests
`is_long_enough`.  On a flush the accumulation buffer and the
first-arrival timestamp are reset before returning. -/
def collectRecentText (now : ℚ) (newTexts : List String) (st : FastState) : CollectResult :=
  let textBuffer := pushWindow now st.textBuffer newTexts
  let accumBuffer := st.accumBuffer ++ newTexts
  let accumStart := drainedStart now newTexts st
  if accumBuffer = [] then
    { state := ⟨textBuffer, accumBuffer, accumStart⟩, text := "", shouldAnalyze := false }
  else
    let accumulated := pyJoin (" ") accumBuffer
    let timeoutHit :=
      match accumStart with
      | some t => decide (accumulationTimeout ≤ now - t)
      | none => false
    let longEnough := decide (minCharThreshold ≤ pyLen accumulated)
    if timeoutHit || longEnough then
      { state := ⟨textBuffer, [], none⟩, text := accumulated, shouldAnalyze := true }
    else
      { state := ⟨textBuffer, accumBuffer, accumStart⟩, text := accumulated, shouldAnalyze := false }

/-- Observable actions of the Fast Brain thread, in program order:
an LLM analysis of a text, the OSC broadcast of a result dictionary
(`send_json_prompt`), the invocation of the prompt callback, and the
final `self.join(...)` in `stop`. -/
inductive BrainEffect where
  | llmAnalyze (text : String)
  | oscJsonPrompt (pd : PromptData)
  | promptCb (pd : PromptData)
  | joinThread
deriving DecidableEq, Repr

/-- Emissions performed when `_analyze_with_ollama` returned a dictionary
(brain_engine.py lines 366-376 and 402-408): OSC send, then the prompt
callback when one is registered. -/
def emitEffects (pd : PromptData) (hasCb : Bool) : List BrainEffect :=
  [BrainEffect.oscJsonPrompt pd] ++ (if hasCb then [BrainEffect.promptCb pd] else [])

/-- Emissions of one analysis of `text` with LLM outcome `o`: nothing
when `_analyze_with_ollama` returns `None` (the `if prompt_data:` guard),
otherwise the OSC send and callback. -/
def fastEmissions (text : String) (o : LlmOutcome) (hasCb : Bool) : List BrainEffect :=
  match analyzeWithOllama text o with
  | some pd => emitEffects pd hasCb
  | none => []

/-- Default of `Config.brain_analysis_interval` (config.py line 36): 7.5 s. -/
def brainAnalysisInterval : ℚ := 15 / 2

/-- Result of one iteration of `BrainEngine.run`: updated state, updated
`last_analysis_time`, and the effects performed this iteration. -/
structure RunStepResult where
  state : FastState
  lastAnalysisTime : ℚ
  effects : List BrainEffect
deriving DecidableEq, Repr

/-- Embedding of one iteration of the `BrainEngine.run` loop
(brain_engine.py lines 350-381): collect recent text, then analyze when
the text is non-blank and either the flush flag is set or the fallback
periodic interval has elapsed; on analysis, `last_analysis_time` is
updated whether or not the LLM produced a result. -/
def brainRunStep (now : ℚ) (newTexts : List String) (o : LlmOutcome) (hasCb : Bool)
    (st : FastState) (lastAnalysisTime : ℚ) : RunStepResult :=
  let c := collectRecentText now newTexts st
  let intervalElapsed := decide (brainAnalysisInterval ≤ now - lastAnalysisTime)
  if !(pyStrip c.text == "") && (c.shouldAnalyze || intervalElapsed) then
    { state := c.state, lastAnalysisTime := now,
      effects := [BrainEffect.llmAnalyze c.text] ++ fastEmissions c.text o hasCb }
  else
    { state := c.state, lastAnalysisTime := lastAnalysisTime, effects := [] }

/-- Embedding of `BrainEngine.stop` (brain_engine.py lines 390-411): when
the accumulation buffer is non-empty and its joined text is non-blank,
one final synchronous analysis runs and any result is sent via OSC and
the prompt callback; then the worker thread is joined.  The method never
mutates the accumulation buffer, so the state is returned unchanged. -/
def stopEngine (st : FastState) (o : LlmOutcome) (hasCb : Bool) :
    FastState × List BrainEffect :=
  let effs :=
    if st.accumBuffer = [] then []
    else
      let remaining := pyJoin (" ") st.accumBuffer
      if pyStrip remaining = "" then []
      else [BrainEffect.llmAnalyze remaining] ++ fastEmissions remaining o hasCb
  (st, effs ++ [BrainEffect.joinThread])

/-- The Fast Brain's buffers at construction (brain_engine.py lines 51-56). -/
def initialFastState : FastState := ⟨[], [], none⟩

/-- Iterated `BrainEngine.run` loop: each entry of `steps` is one
iteration's wake-up time and LLM outcome, with no tokens arriving on the
queue.  Returns the final state, the final `last_analysis_time`, and the
concatenated effects of all iterations. -/
def brainRunTrace (steps : List (ℚ × LlmOutcome)) (hasCb : Bool) (st : FastState)
    (lastAnalysisTime : ℚ) : FastState × ℚ × List BrainEffect :=
  match steps with
  | [] => (st, lastAnalysisTime, [])
  | (now, o) :: rest =>
    let r := brainRunStep now [] o hasCb st lastAnalysisTime
    let r2 := brainRunTrace rest hasCb r.state r.lastAnalysisTime
    (r2.1, r2.2.1, r.effects ++ r2.2.2)

/-! STT worker (audio_engine.py). -/

/-- The special token ids filtered in `_handle_text_token`
(audio_engine.py line 168). -/
def specialTokenIds : List Nat := [0, 3]

/-- The sentencepiece word-start marker converted to a space in
`_handle_text_token` (audio_engine.py line 177). -/
def wordStartMarker : Char := '▁'

/-- The string a call of `_handle_text_token` emits, when it emits one
(audio_engine.py lines 160-195): `none` when the token id is a special
id, when the text tokenizer is not loaded (`idToPiece = none`), or when
the decoded piece is empty after converting the sentencepiece word-start
marker to a space and trimming; otherwise the cleaned surface string. -/
def emittedToken (idToPiece : Option (Nat → String)) (tokenId : Nat) : Option String :=
  if specialTokenIds.contains tokenId then none
  else
    match idToPiece with
    | none => none
    | some f =>
      let cleaned := pyStrip (replaceChar wordStartMarker ' ' (f tokenId))
      if cleaned = "" then none else some cleaned

/-- `queue.Queue.put_nowait` with the `queue.Full` handler of
`_handle_text_token` (audio_engine.py lines 187-195): when the queue is
full (`maxsize` positive and reached), the oldest entry is removed and
the new one appended; a Python `maxsize` of 0 means unbounded. -/
def queuePutNowait (maxsize : Nat) (q : List String) (x : String) : List String :=
  if maxsize ≠ 0 ∧ maxsize ≤ q.length then
    match q with
    | [] => q
    | _ :: rest => rest ++ [x]
  else q ++ [x]

/-- Output channels written by `AudioEngine._handle_text_token`:
the text queue consumed by the Fast Brain, the record of strings passed
to the transcription callback, and — for stating the fan-out claim — the
queue the Slow Brain consumes (`summary_queue`).  The `AudioEngine` in
src/src/audio_engine.py holds no such queue and `_handle_text_token`
never writes one; the field only lets the theorems observe that fact. -/
structure STTOutState where
  textQueue : List String
  callbackLog : List String
  slowQueue : List String
deriving DecidableEq, Repr

/-- Embedding of `AudioEngine._handle_text_token` (audio_engine.py lines
160-202): drop special ids, decode, convert the word-start marker, trim,
drop empties; push the cleaned string to the text queue (drop-oldest on
full) and hand it to the transcription callback when one is set.  No
other channel is written. -/
def handleTextToken (idToPiece : Option (Nat → String)) (hasCb : Bool) (maxsize : Nat)
    (tokenId : Nat) (st : STTOutState) : STTOutState :=
  match emittedToken idToPiece tokenId with
  | none => st
  | some cleaned =>
    { st with
      textQueue := queuePutNowait maxsize st.textQueue cleaned
      callbackLog := st.callbackLog ++ (if hasCb then [cleaned] else []) }

/-! Audio gating and AGC (audio_engine.py run loop, lines 321-373). -/

/-- `GATE_THRESHOLD` (audio_engine.py line 32): 0.04. -/
def gateThreshold : ℚ := 1 / 25

/-- AGC target level (audio_engine.py line 344): 0.95. -/
def agcTarget : ℚ := 19 / 20

/-- AGC maximum gain (audio_engine.py line 346): 8. -/
def agcMaxGain : ℚ := 8

/-- The epsilon added to the peak in the gain computation
(audio_engine.py line 345): 1e-6. -/
def agcEpsilon : ℚ := 1 / 1000000

/-- The absolute-silence floor below which AGC is skipped
(audio_engine.py line 337): 0.001. -/
def silenceFloor : ℚ := 1 / 1000

/-- `float(np.abs(mono).max())` over a sample list, with 0 for the empty
list. -/
def peakOf (xs : List ℚ) : ℚ := xs.foldl (fun m x => max m |x|) 0

/-- `np.clip(x, -1.0, 1.0)` for one sample. -/
def clipSample (x : ℚ) : ℚ := max (-1) (min 1 x)

/-- The AGC block (audio_engine.py lines 336-352): when the peak exceeds
the silence floor, scale by `min(agcTarget / (peak + eps), agcMaxGain)`
and clip to `[-1, 1]`; otherwise leave the frame untouched. -/
def applyAgc (mono : List ℚ) : List ℚ :=
  let peak := peakOf mono
  if silenceFloor < peak then
    let gain := min (agcTarget / (peak + agcEpsilon)) agcMaxGain
    mono.map (fun x => clipSample (x * gain))
  else mono

/-- The noise gate (audio_engine.py lines 354-373): recompute the level
after AGC and skip the chunk entirely (`continue`, the model is not
advanced) when it is below `gateThreshold`; otherwise the processed
frame is handed to `_process_audio_chunk`. -/
def gateChunk (mono : List ℚ) : Option (List ℚ) :=
  let m := applyAgc mono
  if peakOf m < gateThreshold then none else some m

/-- The frames of a run that reach `_process_audio_chunk` at all: the
gate discards the rest. -/
def fedToModel (chunks : List (List ℚ)) : List (List ℚ) :=
  chunks.filterMap gateChunk

/-- Text tokens emitted by the STT worker over a run: each frame passing
the gate is one `gen.step` (abstracted as `stepFn`, at most one token id
per frame, audio_engine.py lines 204-235), whose id goes through the
token filter and decoding of `_handle_text_token`. -/
def sttTokens (stepFn : List ℚ → Option Nat) (idToPiece : Option (Nat → String))
    (chunks : List (List ℚ)) : List String :=
  (fedToModel chunks).filterMap (fun c => (stepFn c).bind (emittedToken idToPiece))

/-! Slow Brain (summary_engine.py) and the attribute surfaces of its
collaborators.  Python resolves `obj.name` against the names the class
defines; a missing name raises `AttributeError` at the point of use, so
the defined-name sets of `OSCClient` and `Config` are part of the
behaviour of `SummaryEngine._generate_text_summary`. -/

/-- Methods defined on `OSCClient` in src/src/osc_client.py. -/
def oscClientMethods : List String :=
  ["connect", "disconnect", "send", "send_json_prompt", "update_target"]

/-- Fields and methods defined on `Config` in src/src/config.py. -/
def configAttrs : List String :=
  ["osc_target_ip", "osc_target_port", "audio_device", "sample_rate", "channels",
   "chunk_size", "moshi_model_path", "moshi_device", "moshi_quantization",
   "ollama_model", "ollama_base_url", "brain_analysis_interval", "system_prompt",
   "log_level", "update_osc_config", "update_audio_device"]

/-- Modelled from the spec: `Config.summary_text_system_prompt`, the
system prompt of the Slow Brain's 30 s text-summary task (spec section
4.D), is read by src/src/summary_engine.py line 121 but no such
attribute is defined in src/src/config.py; its concrete wording is
unspecified, so it is modelled as an opaque string. -/
def summaryTextSystemPrompt : String := "summary_text_system_prompt"

/-- `N_max_chars` of the Slow Brain (summary_engine.py line 104): 15000. -/
def nMaxChars : Nat := 15000

/-- `full_text[-n:]` applied only when `len(full_text) > n`
(summary_engine.py lines 104-105). -/
def trailingChars (s : String) (n : Nat) : String :=
  if n < pyLen s then pyDropFront s (pyLen s - n) else s

/-- Observable actions of `SummaryEngine._generate_text_summary`:
the LLM call of `_call_ollama` (system prompt, user prompt), an OSC
send, the UI text callback, and the error logged by the
`except Exception` handler. -/
inductive SummaryEffect where
  | llmCall (systemPrompt userPrompt : String)
  | oscSendText (address msg : String)
  | uiText (msg : String)
  | errorLogged
deriving DecidableEq, Repr

/-- Embedding of `SummaryEngine._generate_text_summary`
(summary_engine.py lines 97-137), parameterized by whether the two
attribute lookups it performs succeed: `cfgHasSummaryPrompt` is whether
`Config` defines `summary_text_system_prompt` (read before the LLM
call), `oscHasSendMessage` is whether `OSCClient` defines
`send_message` (called before the UI callback).  A failed lookup raises
`AttributeError` inside the `try`, so the handler logs the error and
every later action of the method is skipped.  `resp` is the value
`_call_ollama` returned (`none` for a non-200 status or connection
error, already handled inside `_call_ollama`); a falsy (empty) response
string emits nothing.  `stopSet` is the `_stop_event` flag, checked
before the call. -/
def generateTextSummary (cfgHasSummaryPrompt oscHasSendMessage : Bool)
    (sysPrompt : String) (transcript : List String) (resp : Option String)
    (oscPresent hasTextCb stopSet : Bool) : List SummaryEffect :=
  let fullText := pyJoin (" ") transcript
  if pyStrip fullText = "" then []
  else
    let fullText := trailingChars fullText nMaxChars
    if stopSet then []
    else if !cfgHasSummaryPrompt then [SummaryEffect.errorLogged]
    else
      let callEff := [SummaryEffect.llmCall sysPrompt (("TRANSCRIPT:\n") ++ fullText)]
      match resp with
      | none => callEff
      | some r =>
        if r = "" then callEff
        else if oscPresent then
          if oscHasSendMessage then
            callEff ++ [SummaryEffect.oscSendText ("/summary/text") r]
              ++ (if hasTextCb then [SummaryEffect.uiText r] else [])
          else callEff ++ [SummaryEffect.errorLogged]
        else callEff ++ (if hasTextCb then [SummaryEffect.uiText r] else [])

/-- `_generate_text_summary` as it runs against the classes of src/: the
two attribute lookups resolve against `configAttrs` and
`oscClientMethods`. -/
def generateTextSummarySrc (transcript : List String) (resp : Option String)
    (oscPresent hasTextCb stopSet : Bool) : List SummaryEffect :=
  generateTextSummary (configAttrs.contains ("summary_text_system_prompt"))
    (oscClientMethods.contains ("send_message")) summaryTextSystemPrompt
    transcript resp oscPresent hasTextCb stopSet

/-- Mutable state of `SummaryEngine` (summary_engine.py lines 42-45). -/
structure SlowState where
  fullTranscript : List String
  lastSummaryTime : ℚ
  lastVisualTime : ℚ
deriving DecidableEq, Repr

/-- `SUMMARY_INTERVAL` (summary_engine.py line 48): 30 s. -/
def summaryInterval : ℚ := 30

/-- One iteration of the `SummaryEngine.run` loop restricted to the
30 s text-summary task (summary_engine.py lines 68-84): drain the queue
into the transcript, and when the interval has elapsed run
`_generate_text_summary` if the transcript is non-empty, resetting the
timer either way.  The independent 60 s visual task (lines 87-90)
shares no state with this one beyond the transcript and is omitted. -/
def slowTick (now : ℚ) (newWords : List String) (resp : Option String)
    (oscPresent hasTextCb stopSet : Bool) (st : SlowState) :
    SlowState × List SummaryEffect :=
  let transcript := st.fullTranscript ++ newWords
  if summaryInterval ≤ now - st.lastSummaryTime then
    let effs :=
      if transcript = [] then []
      else generateTextSummarySrc transcript resp oscPresent hasTextCb stopSet
    ({ st with fullTranscript := transcript, lastSummaryTime := now }, effs)
  else
    ({ st with fullTranscript := transcript }, [])

/-! Pause/resume state capture. -/

/-- The dictionary `SummaryEngine.get_state` returns
(summary_engine.py lines 203-207): a copy of the full transcript. -/
structure SlowSaved where
  fullTranscriptField : List String
deriving DecidableEq, Repr

/-- Embedding of `SummaryEngine.get_state`. -/
def slowGetState (st : SlowState) : SlowSaved := ⟨st.fullTranscript⟩

/-- Embedding of `SummaryEngine.set_state` (summary_engine.py lines
209-213): a falsy state (`none`) is ignored; otherwise the transcript is
replaced by the saved copy.  The timers are untouched. -/
def slowSetState (s : Option SlowSaved) (st : SlowState) : SlowState :=
  match s with
  | none => st
  | some v => { st with fullTranscript := v.fullTranscriptField }

/-- Embedding of `SummaryEngine.reset_memory` (summary_engine.py lines
198-201): the transcript is cleared. -/
def slowResetMemory (st : SlowState) : SlowState := { st with fullTranscript := [] }

/-- Fast Brain state extended with the two pause/resume-only components
named by the spec (section 4.C): the user context string and the last
flush time. -/
structure FastFullState where
  core : FastState
  userContext : Option String
  lastFlushTime : ℚ
deriving DecidableEq, Repr

/-- Modelled from the spec: the capture `BrainEngine.get_state` returns.
main.py calls `get_state`, `set_state` and `clear_memory` on
`BrainEngine`, but src/src/brain_engine.py defines none of them; spec
section 4.C specifies the capture as
accum, ctx, user_context, last_flush_time. -/
structure FastSaved where
  accumField : List String
  accumStartField : Option ℚ
  ctxField : List (ℚ × String)
  userContextField : Option String
  lastFlushField : ℚ
deriving DecidableEq, Repr

/-- Modelled from the spec: `BrainEngine.get_state` captures the
accumulation buffer with its first-arrival timestamp, the context
buffer, the user context and the last flush time (spec section 4.C). -/
def fastGetState (st : FastFullState) : FastSaved :=
  ⟨st.core.accumBuffer, st.core.accumStart, st.core.textBuffer,
    st.userContext, st.lastFlushTime⟩

/-- Modelled from the spec: `BrainEngine.set_state` restores a capture
verbatim and ignores a falsy one, mirroring `SummaryEngine.set_state`. -/
def fastSetState (s : Option FastSaved) (st : FastFullState) : FastFullState :=
  match s with
  | none => st
  | some v =>
    { core := ⟨v.ctxField, v.accumField, v.accumStartField⟩,
      userContext := v.userContextField, lastFlushTime := v.lastFlushField }

/-- Modelled from the spec: `BrainEngine.clear_memory` (main.py memory
reset) empties the accumulation and context buffers. -/
def fastClearMemory (st : FastFullState) : FastFullState :=
  { st with core := ⟨[], [], none⟩ }

/-! Claim-side predicates. -/

/-- Condition (2) of claim C4 as the source computes its
`is_complete_sentence` flag (brain_engine.py lines 150-154): the last
accumulated token, stripped, is non-empty and ends with a sentence
punctuation mark. -/
def lastEndsPunct (buf : List String) : Bool :=
  match buf.getLast? with
  | none => false
  | some s =>
    match lastChar? (pyStrip s) with
    | none => false
    | some c => c = '.' || c = '!' || c = '?'

/-- The flush condition exactly as claim C4 states it: the (post-drain)
accumulation buffer is non-empty and (1) the time since first arrival is
at least the fast rate, or (2) the last token ends with sentence
punctuation and the accumulated text has at least `minCharThreshold`
characters, or (3) the accumulated text has at least `minCharThreshold`
characters regardless of punctuation. -/
def claimFlushSpec (now : ℚ) (buf : List String) (start : Option ℚ) : Prop :=
  buf ≠ [] ∧
    ((∃ t, start = some t ∧ accumulationTimeout ≤ now - t) ∨
     (lastEndsPunct buf = true ∧ minCharThreshold ≤ pyLen (pyJoin (" ") buf)) ∨
     minCharThreshold ≤ pyLen (pyJoin (" ") buf))

/-- The invariant of claim C8: the first-arrival timestamp is `None`
exactly when the accumulation buffer is empty. -/
def accumInvariant (st : FastState) : Prop :=
  st.accumStart = none ↔ st.accumBuffer = []

/-! Helper lemmas. -/

/-- The state returned by a `run` iteration is the state
`_collect_recent_text` returned: the analysis and emission code touches
neither buffer. -/
theorem brainRunStep_state (now : ℚ) (newTexts : List String) (o : LlmOutcome)
    (hasCb : Bool) (st : FastState) (la : ℚ) :
    (brainRunStep now newTexts o hasCb st la).state = (collectRecentText now newTexts st).state := by
  unfold brainRunStep
  dsimp only
  split <;> rfl

/-- A flush inside `_collect_recent_text` leaves the accumulation buffer
empty and the first-arrival timestamp cleared. -/
theorem collect_flush_resets (now : ℚ) (newTexts : List String) (st : FastState)
    (h : (collectRecentText now newTexts st).shouldAnalyze = true) :
    (collectRecentText now newTexts st).state.accumBuffer = [] ∧
    (collectRecentText now newTexts st).state.accumStart = none := by
  unfold collectRecentText at h ⊢
  dsimp only at h ⊢
  split at h
  · simp at h
  · split at h
    · split
      · simp_all
      · exact ⟨rfl, rfl⟩
    · simp at h

/-- Folding the peak accumulator over an all-zero sample list returns
the (non-negative) accumulator. -/
theorem peak_foldl_zero (xs : List ℚ) (h : ∀ x ∈ xs, x = 0) (acc : ℚ) (hacc : 0 ≤ acc) :
    xs.foldl (fun m x => max m |x|) acc = acc := by
  induction xs generalizing acc with
  | nil => rfl
  | cons y ys ih =>
    have hy : y = 0 := h y (by simp)
    have hstep : max acc |y| = acc := by simp [hy, abs_zero, max_eq_left hacc]
    simpa [hstep] using ih (fun x hx => h x (by simp [hx])) acc hacc

/-- The peak of an all-zero sample list is 0. -/
theorem peakOf_zero (xs : List ℚ) (h : ∀ x ∈ xs, x = 0) : peakOf xs = 0 :=
  peak_foldl_zero xs h 0 le_rfl

/-- An all-zero frame is discarded by the noise gate. -/
theorem gateChunk_zero (c : List ℚ) (h : ∀ x ∈ c, x = 0) : gateChunk c = none := by
  have hp : peakOf c = 0 := peakOf_zero c h
  have hagc : applyAgc c = c := by
    unfold applyAgc
    rw [hp]
    norm_num [silenceFloor]
  unfold gateChunk
  dsimp only
  rw [hagc, hp]
  norm_num [gateThreshold]

/-- A `run` iteration that receives no tokens while the accumulation
buffer is empty changes nothing and performs no effects. -/
theorem brainRunStep_no_tokens (now la : ℚ) (o : LlmOutcome) (cb : Bool)
    (tb : List (ℚ × String)) :
    brainRunStep now [] o cb ⟨tb, [], none⟩ la = ⟨⟨tb, [], none⟩, la, []⟩ := by
  simp [brainRunStep, collectRecentText, pushWindow, drainedStart, pyStrip, stripChars]

/-- A whole `run` trace that never receives a token performs no LLM
analysis and no emission. -/
theorem brainRunTrace_no_tokens (steps : List (ℚ × LlmOutcome)) (cb : Bool)
    (tb : List (ℚ × String)) (la : ℚ) :
    (brainRunTrace steps cb ⟨tb, [], none⟩ la).2.2 = [] := by
  induction steps generalizing la with
  | nil => rfl
  | cons p rest ih =>
    obtain ⟨now, o⟩ := p
    simp [brainRunTrace, brainRunStep_no_tokens, ih]

/-- All-zero frame lists are entirely discarded by the gate. -/
theorem fedToModel_zero (chunks : List (List ℚ)) :
    (∀ c ∈ chunks, ∀ x ∈ c, x = 0) → fedToModel chunks = [] := by
  induction chunks with
  | nil => intro _; rfl
  | cons c cs ih =>
    intro hzero
    unfold fedToModel at ih ⊢
    rw [List.filterMap_cons, gateChunk_zero c (hzero c (by simp))]
    exact ih (fun c2 hc2 => hzero c2 (by simp [hc2]))

/-- The empty frame is below the gate after AGC. -/
theorem gateEmptyFact : peakOf (applyAgc ([] : List ℚ)) < gateThreshold := by
  norm_num [peakOf, applyAgc, silenceFloor, gateThreshold]

/-- A 24-character sentence arriving into an empty accumulation buffer
triggers the length flush. -/
theorem flushFactLongSentence :
    (collectRecentText 0 [("This is a long sentence.")] initialFastState).shouldAnalyze = true := by
  norm_num [collectRecentText, pushWindow, drainedStart, initialFastState, pyJoin, joinChars,
    pyLen, minCharThreshold, accumulationTimeout, dequeAppend]

/-! Claims. -/

/-- C1 (counterexample): with default settings, a flush of the 24-character
accumulated text with the LLM unreachable performs the analysis attempt
but emits no `PromptResult` at all — neither to the OSC broadcaster nor
to the prompt callback — contradicting the claim that an LLM failure
never causes silent loss of a flush. -/
theorem c1_counterexample :
    (brainRunStep 0 [("This is a long sentence.")] LlmOutcome.unreachable true
        initialFastState (-100)).effects
      = [BrainEffect.llmAnalyze ("This is a long sentence.")] := by
  norm_num [brainRunStep, collectRecentText, pushWindow, drainedStart, accumulationTimeout,
    minCharThreshold, brainAnalysisInterval, fastEmissions, analyzeWithOllama, pyJoin, joinChars,
    pyLen, initialFastState, dequeAppend, pyTake]
  decide

/-- C1 (amended): for a non-blank flush text, the Fast Brain emits the
fallback `PromptResult` (prompt = first 200 characters of the raw text,
style abstract, mood dynamic) only when the LLM responded but its content
failed JSON parsing; when the LLM call raises (unreachable or timeout),
or when the response parses to a non-object, `_analyze_with_ollama`
returns `None` and the flush is silently dropped. -/
theorem c1_fallback_only_on_bad_json (text : String) (h : pyStrip text ≠ "") :
    analyzeWithOllama text (LlmOutcome.response ParseOutcome.decodeErr) =
      some ⟨pyTake text 200, "abstract", "dynamic"⟩ ∧
    fastEmissions text (LlmOutcome.response ParseOutcome.decodeErr) true =
      [BrainEffect.oscJsonPrompt ⟨pyTake text 200, "abstract", "dynamic"⟩,
       BrainEffect.promptCb ⟨pyTake text 200, "abstract", "dynamic"⟩] ∧
    analyzeWithOllama text LlmOutcome.unreachable = none ∧
    fastEmissions text LlmOutcome.unreachable true = [] ∧
    analyzeWithOllama text (LlmOutcome.response ParseOutcome.nonObj) = none := by
  simp [analyzeWithOllama, fastEmissions, emitEffects, h]

/-- C1 (witness): the amended behaviour evaluated on the text Hello. -/
theorem c1_witness :
    analyzeWithOllama ("Hello.") (LlmOutcome.response ParseOutcome.decodeErr) =
      some ⟨pyTake ("Hello.") 200, "abstract", "dynamic"⟩ ∧
    fastEmissions ("Hello.") (LlmOutcome.response ParseOutcome.decodeErr) true =
      [BrainEffect.oscJsonPrompt ⟨pyTake ("Hello.") 200, "abstract", "dynamic"⟩,
       BrainEffect.promptCb ⟨pyTake ("Hello.") 200, "abstract", "dynamic"⟩] ∧
    analyzeWithOllama ("Hello.") LlmOutcome.unreachable = none ∧
    fastEmissions ("Hello.") LlmOutcome.unreachable true = [] ∧
    analyzeWithOllama ("Hello.") (LlmOutcome.response ParseOutcome.nonObj) = none :=
  c1_fallback_only_on_bad_json ("Hello.") (by decide)

/-- C2: `_handle_text_token` never writes a second (Slow Brain) queue —
for every token only the single text queue and the transcription
callback are fed; evaluated at token id 1000 decoding to a Hello piece,
the text queue receives the cleaned token while the Slow Brain queue
stays empty. -/
theorem c2_tokens_single_channel :
    (∀ idToPiece cb ms tid st,
        (handleTextToken idToPiece cb ms tid st).slowQueue = st.slowQueue) ∧
    (handleTextToken (some (fun _ => ("▁Hello"))) true 0 1000 ⟨[], [], []⟩).textQueue
        = [("Hello")] ∧
    (handleTextToken (some (fun _ => ("▁Hello"))) true 0 1000 ⟨[], [], []⟩).slowQueue = [] := by
  refine ⟨?_, by decide, by decide⟩
  intro idToPiece cb ms tid st
  unfold handleTextToken
  split <;> rfl

/-- C3: the text-summary tick never emits.  `Config` defines no
`summary_text_system_prompt`, so with a non-empty transcript the
attribute read raises before the LLM call and only the error log runs;
even granting the prompt attribute, `OSCClient` defines no
`send_message`, so the OSC send raises after the LLM call and both the
OSC emission and the UI callback are skipped. -/
theorem c3_summary_never_emitted :
    configAttrs.contains ("summary_text_system_prompt") = false ∧
    oscClientMethods.contains ("send_message") = false ∧
    generateTextSummarySrc (["Hello", "world", "today"]) (some ("A summary.")) true true false
      = [SummaryEffect.errorLogged] ∧
    generateTextSummary true false summaryTextSystemPrompt (["Hello", "world", "today"])
        (some ("A summary.")) true true false
      = [SummaryEffect.llmCall summaryTextSystemPrompt ("TRANSCRIPT:\nHello world today"),
         SummaryEffect.errorLogged] ∧
    (slowTick 31 [] (some ("A summary.")) true true false
        ⟨["Hello", "world", "today"], 0, 0⟩).2 = [SummaryEffect.errorLogged] := by
  refine ⟨rfl, rfl, by decide, by decide, ?_⟩
  norm_num [slowTick, summaryInterval]
  decide

/-- C4: `_collect_recent_text` sets `should_analyze_now` exactly when the
post-drain accumulation buffer is non-empty and (1) at least 7.5 s
passed since the first-arrival timestamp, or (2) the last token ends
with sentence punctuation and the accumulated text has at least 15
characters, or (3) the accumulated text has at least 15 characters —
clause (2) being subsumed by clause (3), exactly as in the source where
the computed `is_complete_sentence` flag does not affect the
decision. -/
theorem c4_flush_iff (now : ℚ) (newTexts : List String) (st : FastState) :
    (collectRecentText now newTexts st).shouldAnalyze = true ↔
      claimFlushSpec now (st.accumBuffer ++ newTexts) (drainedStart now newTexts st) := by
  unfold collectRecentText claimFlushSpec
  dsimp only
  by_cases hb : st.accumBuffer ++ newTexts = []
  · simp [hb]
  · simp only [hb, if_false]
    have hsplit : (if
        ((match drainedStart now newTexts st with
          | some t => decide (accumulationTimeout ≤ now - t)
          | none => false) ||
          decide (minCharThreshold ≤ pyLen (pyJoin (" ") (st.accumBuffer ++ newTexts)))) = true
        then (⟨⟨pushWindow now st.textBuffer newTexts, [], none⟩,
               pyJoin (" ") (st.accumBuffer ++ newTexts), true⟩ : CollectResult)
        else ⟨⟨pushWindow now st.textBuffer newTexts, st.accumBuffer ++ newTexts,
               drainedStart now newTexts st⟩,
               pyJoin (" ") (st.accumBuffer ++ newTexts), false⟩).shouldAnalyze = true ↔
        ((match drainedStart now newTexts st with
          | some t => decide (accumulationTimeout ≤ now - t)
          | none => false) ||
          decide (minCharThreshold ≤ pyLen (pyJoin (" ") (st.accumBuffer ++ newTexts)))) = true := by
      split <;> simp_all
    rw [hsplit]
    cases hds : drainedStart now newTexts st with
    | none =>
      simp only [Bool.false_or, decide_eq_true_eq]
      constructor
      · intro hl
        exact ⟨hb, Or.inr (Or.inr hl)⟩
      · rintro ⟨-, h | h | h⟩
        · obtain ⟨t, ht, -⟩ := h
          exact absurd ht (by simp)
        · exact h.2
        · exact h
    | some t =>
      simp only [Bool.or_eq_true, decide_eq_true_eq]
      constructor
      · rintro (h | h)
        · exact ⟨hb, Or.inl ⟨t, rfl, h⟩⟩
        · exact ⟨hb, Or.inr (Or.inr h)⟩
      · rintro ⟨-, h | h | h⟩
        · obtain ⟨t2, ht2, h2⟩ := h
          exact Or.inl (by cases ht2; exact h2)
        · exact Or.inr h.2
        · exact Or.inr h

/-- C5: on both brain stages the save/restore round trip is the
identity on the stage state — hence observationally identical for the
next emission, witnessed on the emission functions themselves — and a
memory reset followed by a state capture returns empty buffers. -/
theorem c5_state_roundtrip (stS : SlowState) (stF : FastFullState) (now : ℚ)
    (newWords newTexts : List String) (resp : Option String) (b1 b2 b3 : Bool) :
    slowSetState (some (slowGetState stS)) stS = stS ∧
    slowTick now newWords resp b1 b2 b3 (slowSetState (some (slowGetState stS)) stS) =
      slowTick now newWords resp b1 b2 b3 stS ∧
    slowGetState (slowResetMemory stS) = ⟨[]⟩ ∧
    fastSetState (some (fastGetState stF)) stF = stF ∧
    collectRecentText now newTexts (fastSetState (some (fastGetState stF)) stF).core =
      collectRecentText now newTexts stF.core ∧
    fastGetState (fastClearMemory stF) = ⟨[], none, [], stF.userContext, stF.lastFlushTime⟩ := by
  obtain ⟨ft, ls, lv⟩ := stS
  obtain ⟨⟨tb, ab, a0⟩, uc, lf⟩ := stF
  exact ⟨rfl, rfl, rfl, rfl, rfl, rfl⟩

/-- C6: every token `_handle_text_token` emits is exactly the decoded
piece with the word-start marker converted to a space and trimmed, is
non-empty, comes from an id outside the special-id filter set, and is
what gets pushed onto the text queue. -/
theorem c6_emitted_tokens_clean (f : Nat → String) (tid : Nat) (s : String)
    (h : emittedToken (some f) tid = some s) :
    s = pyStrip (replaceChar wordStartMarker ' ' (f tid)) ∧
    s ≠ "" ∧
    specialTokenIds.contains tid = false ∧
    ∀ cb ms st, (handleTextToken (some f) cb ms tid st).textQueue
        = queuePutNowait ms st.textQueue s := by
  have h0 := h
  unfold emittedToken at h
  by_cases hmem : tid ∈ specialTokenIds
  · rw [if_pos (by simp [hmem])] at h
    exact absurd h (by simp)
  · have hspec : specialTokenIds.contains tid = false := by simp [hmem]
    rw [if_neg (by simp [hmem])] at h
    dsimp only at h
    by_cases hc : pyStrip (replaceChar wordStartMarker ' ' (f tid)) = ""
    · rw [if_pos hc] at h
      exact absurd h (by simp)
    · rw [if_neg hc] at h
      have hs : s = pyStrip (replaceChar wordStartMarker ' ' (f tid)) :=
        (Option.some.inj h).symm
      refine ⟨hs, by rw [hs]; exact hc, hspec, ?_⟩
      intro cb ms st
      unfold handleTextToken
      rw [h0]

/-- C6 (witness): the cleanliness facts evaluated at token id 5 decoding
to a marker-prefixed Hi piece. -/
theorem c6_clean_witness :
    ("Hi") = pyStrip (replaceChar wordStartMarker ' ' ("▁Hi")) ∧
    ("Hi") ≠ "" ∧
    specialTokenIds.contains 5 = false ∧
    (handleTextToken (some (fun _ => ("▁Hi"))) true 0 5 ⟨[], [], []⟩).textQueue
        = queuePutNowait 0 [] ("Hi") :=
  (fun r => ⟨r.1, r.2.1, r.2.2.1, r.2.2.2 true 0 ⟨[], [], []⟩⟩)
    (c6_emitted_tokens_clean (fun _ => ("▁Hi")) 5 ("Hi") (by decide))

/-- C7: a frame whose post-AGC peak is below the gate threshold is
discarded without reaching the model; an input consisting entirely of
zero-amplitude frames feeds nothing to the model and yields no STT
tokens, and a Fast Brain that receives no tokens performs no LLM call
and no emission over any run trace. -/
theorem c7_gate_discards (mono : List ℚ) (chunks : List (List ℚ))
    (hgate : peakOf (applyAgc mono) < gateThreshold)
    (hzero : ∀ c ∈ chunks, ∀ x ∈ c, x = 0) :
    gateChunk mono = none ∧
    fedToModel chunks = [] ∧
    (∀ stepFn idToPiece, sttTokens stepFn idToPiece chunks = []) ∧
    (∀ steps cb la, (brainRunTrace steps cb initialFastState la).2.2 = []) := by
  have hfed : fedToModel chunks = [] := fedToModel_zero chunks hzero
  refine ⟨?_, hfed, ?_, ?_⟩
  · unfold gateChunk
    dsimp only
    rw [if_pos hgate]
  · intro stepFn idToPiece
    unfold sttTokens
    rw [hfed]
    rfl
  · intro steps cb la
    exact brainRunTrace_no_tokens steps cb [] la

/-- C7 (witness): the gate facts evaluated on the empty frame, two
zero frames, a constant step function and a one-step silent trace. -/
theorem c7_gate_witness :
    gateChunk ([] : List ℚ) = none ∧
    fedToModel [[0], [0, 0]] = [] ∧
    sttTokens (fun _ => some 5) none [[0], [0, 0]] = [] ∧
    (brainRunTrace [(1, LlmOutcome.unreachable)] true initialFastState 0).2.2 = [] :=
  (fun r => ⟨r.1, r.2.1, r.2.2.1 (fun _ => some 5) none,
    r.2.2.2 [(1, LlmOutcome.unreachable)] true 0⟩)
    (c7_gate_discards [] [[0], [0, 0]] gateEmptyFact (by decide))

/-- C8: the buffers start with the invariant (first-arrival timestamp is
`None` iff the accumulation buffer is empty), and both
`_collect_recent_text` (draining and flushing) and `stop` preserve it. -/
theorem c8_accum_invariant (now : ℚ) (newTexts : List String) (st : FastState)
    (o : LlmOutcome) (cb : Bool) (h : accumInvariant st) :
    accumInvariant initialFastState ∧
    accumInvariant (collectRecentText now newTexts st).state ∧
    accumInvariant (stopEngine st o cb).1 := by
  refine ⟨by simp [accumInvariant, initialFastState], ?_, h⟩
  unfold collectRecentText
  dsimp only
  by_cases hb : st.accumBuffer ++ newTexts = []
  · obtain ⟨h1, h2⟩ := List.append_eq_nil.mp hb
    simp [accumInvariant, drainedStart, h1, h2, h.mpr h1]
  · simp only [hb, if_false]
    split
    · simp [accumInvariant]
    · unfold accumInvariant
      dsimp only
      constructor
      · intro hds
        exfalso
        unfold drainedStart at hds
        by_cases hn : newTexts = []
        · rw [if_pos hn] at hds
          have hab : st.accumBuffer = [] := h.mp hds
          simp [hn, hab] at hb
        · rw [if_neg hn] at hds
          split at hds <;> simp_all
      · intro hbuf
        exact absurd hbuf hb

/-- C8 (witness): the invariant holds on a concrete state with a pending
token and is preserved by a drain pass and by stop. -/
theorem c8_invariant_witness :
    accumInvariant (⟨[], ["Hi."], some 0⟩ : FastState) ∧
    accumInvariant initialFastState ∧
    accumInvariant (collectRecentText 1 [] ⟨[], ["Hi."], some 0⟩).state ∧
    accumInvariant (stopEngine ⟨[], ["Hi."], some 0⟩ LlmOutcome.unreachable true).1 :=
  (fun r => ⟨by simp [accumInvariant], r.1, r.2.1, r.2.2⟩)
    (c8_accum_invariant 1 [] ⟨[], ["Hi."], some 0⟩ LlmOutcome.unreachable true
      (by simp [accumInvariant]))

/-- C9 (counterexample): an emission triggered by the fallback periodic
interval (`brain_analysis_interval`) rather than by a flush leaves the
accumulation buffer untouched: 3 s after a 2-character token arrived,
with the last analysis more than 7.5 s ago, the step emits a full
`PromptResult` yet the buffer still holds the token afterwards —
contradicting the claim that every emission resets the buffer. -/
theorem c9_counterexample :
    (brainRunStep 8 [] (LlmOutcome.response ParseOutcome.decodeErr) true
        ⟨[(5, "Hi")], ["Hi"], some 5⟩ 0).effects =
      [BrainEffect.llmAnalyze ("Hi"),
       BrainEffect.oscJsonPrompt ⟨"Hi", "abstract", "dynamic"⟩,
       BrainEffect.promptCb ⟨"Hi", "abstract", "dynamic"⟩] ∧
    (brainRunStep 8 [] (LlmOutcome.response ParseOutcome.decodeErr) true
        ⟨[(5, "Hi")], ["Hi"], some 5⟩ 0).state.accumBuffer = ["Hi"] := by
  constructor <;>
    (norm_num [brainRunStep, collectRecentText, pushWindow, drainedStart, accumulationTimeout,
      minCharThreshold, brainAnalysisInterval, fastEmissions, analyzeWithOllama, pyJoin,
      joinChars, pyLen, emitEffects, pyTake]
     decide)

/-- C9 (amended): after every flush-triggered emission the accumulation
buffer is reset (emptied with the first-arrival timestamp cleared), and
the sliding-window context buffer after a run step does not depend on
the LLM outcome, callback presence or analysis timing — the emission
itself never touches it; emissions triggered by the fallback periodic
interval, however, leave the accumulation buffer unchanged. -/
theorem c9_flush_resets (now : ℚ) (newTexts : List String) (o o2 : LlmOutcome)
    (cb cb2 : Bool) (st : FastState) (la la2 : ℚ)
    (hflush : (collectRecentText now newTexts st).shouldAnalyze = true) :
    (brainRunStep now newTexts o cb st la).state.accumBuffer = [] ∧
    (brainRunStep now newTexts o cb st la).state.accumStart = none ∧
    (brainRunStep now newTexts o cb st la).state.textBuffer =
      (brainRunStep now newTexts o2 cb2 st la2).state.textBuffer := by
  obtain ⟨h1, h2⟩ := collect_flush_resets now newTexts st hflush
  refine ⟨?_, ?_, ?_⟩
  · rw [brainRunStep_state]
    exact h1
  · rw [brainRunStep_state]
    exact h2
  · rw [brainRunStep_state, brainRunStep_state]

/-- C9 (witness): the amended behaviour evaluated on a length-triggered
flush of a 24-character sentence. -/
theorem c9_flush_witness :
    (brainRunStep 0 [("This is a long sentence.")] LlmOutcome.unreachable true
        initialFastState 0).state.accumBuffer = [] ∧
    (brainRunStep 0 [("This is a long sentence.")] LlmOutcome.unreachable true
        initialFastState 0).state.accumStart = none ∧
    (brainRunStep 0 [("This is a long sentence.")] LlmOutcome.unreachable true
        initialFastState 0).state.textBuffer =
      (brainRunStep 0 [("This is a long sentence.")] (LlmOutcome.response ParseOutcome.decodeErr)
        false initialFastState 5).state.textBuffer :=
  c9_flush_resets 0 [("This is a long sentence.")] LlmOutcome.unreachable
    (LlmOutcome.response ParseOutcome.decodeErr) true false initialFastState 0 5
    flushFactLongSentence

/-- C10: when `stop` is called with a non-empty accumulation buffer whose
joined text is non-blank, it leaves the state unchanged, performs one
final synchronous LLM analysis of that text, and — whenever the
analysis returns a result — sends it via OSC and the prompt callback
before joining the worker thread. -/
theorem c10_stop_final_analysis (st : FastState) (o : LlmOutcome)
    (hne : st.accumBuffer ≠ [])
    (hblank : pyStrip (pyJoin (" ") st.accumBuffer) ≠ "") :
    (stopEngine st o true).1 = st ∧
    (stopEngine st o true).2 =
      [BrainEffect.llmAnalyze (pyJoin (" ") st.accumBuffer)]
        ++ fastEmissions (pyJoin (" ") st.accumBuffer) o true
        ++ [BrainEffect.joinThread] ∧
    (∀ pd, analyzeWithOllama (pyJoin (" ") st.accumBuffer) o = some pd →
      (stopEngine st o true).2 =
        [BrainEffect.llmAnalyze (pyJoin (" ") st.accumBuffer),
         BrainEffect.oscJsonPrompt pd, BrainEffect.promptCb pd,
         BrainEffect.joinThread]) := by
  refine ⟨rfl, ?_, ?_⟩
  · simp [stopEngine, hne, hblank]
  · intro pd hpd
    simp [stopEngine, hne, hblank, fastEmissions, hpd, emitEffects]

/-- C10 (witness): stop evaluated on a buffer holding two pending tokens
with the LLM returning unparseable content, so the fallback result is
emitted before the join. -/
theorem c10_stop_witness :
    (stopEngine ⟨[], ["Hello", "world."], some 0⟩ (LlmOutcome.response ParseOutcome.decodeErr)
      true).1 = ⟨[], ["Hello", "world."], some 0⟩ ∧
    (stopEngine ⟨[], ["Hello", "world."], some 0⟩ (LlmOutcome.response ParseOutcome.decodeErr)
      true).2 =
      [BrainEffect.llmAnalyze (pyJoin (" ") ["Hello", "world."]),
       BrainEffect.oscJsonPrompt ⟨"Hello world.", "abstract", "dynamic"⟩,
       BrainEffect.promptCb ⟨"Hello world.", "abstract", "dynamic"⟩,
       BrainEffect.joinThread] :=
  (fun r => ⟨r.1, r.2.2 ⟨"Hello world.", "abstract", "dynamic"⟩ (by decide)⟩)
    (c10_stop_final_analysis ⟨[], ["Hello", "world."], some 0⟩
      (LlmOutcome.response ParseOutcome.decodeErr) (by decide) (by decide))

end VoceVibe
